import Mathlib

/-!
Shallow embedding of the `my_log` logging façade
(`include/xyz_log.hpp`, glog-backend implementation file, README),
together with theorems checking the specification's claims about it.

The spdlog backend is header-only in `xyz_log.hpp`; the glog backend lives
in the separate implementation file.  The spdlog library itself is a
subproject of the repository (README 项目结构: `spdlog/`) whose sources are
not available here; the few of its behaviours that claims depend on are
modelled separately and marked as such in their doc comments.
-/

namespace MyLog

/-- `enum class LogLevel { TRACE=0, DEBUG=1, INFO=2, WARNING=3, ERROR=4, FATAL=5 }`
(xyz_log.hpp line 43). -/
inductive LogLevel where
  | TRACE
  | DEBUG
  | INFO
  | WARNING
  | ERROR
  | FATAL
deriving DecidableEq, Repr, Fintype

/-- The underlying enumerator value of a `LogLevel` (TRACE=0 … FATAL=5);
the total order TRACE < DEBUG < INFO < WARNING < ERROR < FATAL is the order
of these values. -/
def LogLevel.toNat : LogLevel → Nat
  | .TRACE => 0
  | .DEBUG => 1
  | .INFO => 2
  | .WARNING => 3
  | .ERROR => 4
  | .FATAL => 5

/-- `L ≥ M` in the level order: `M.toNat ≤ L.toNat`. -/
def levelLe (a b : LogLevel) : Prop := a.toNat ≤ b.toNat

instance : DecidablePred fun p : LogLevel × LogLevel => levelLe p.1 p.2 :=
  fun _ => inferInstanceAs (Decidable (_ ≤ _))

instance (a b : LogLevel) : Decidable (levelLe a b) :=
  inferInstanceAs (Decidable (_ ≤ _))

/-- `struct LoggerOptions` (xyz_log.hpp lines 45-55), with its default values. -/
structure LoggerOptions where
  program_name : String := "my_app"
  log_dir : String := ""
  enable_console : Bool := false
  async_mode : Bool := true
  multi_thread : Bool := true
  async_queue_size : Nat := 32768
  log_level : LogLevel := .ERROR
  max_log_size : Nat := 10 * 1024 * 1024
  enable_coredump_log : Bool := true
deriving DecidableEq, Repr

/-- The default-constructed `LoggerOptions` (all member initialisers). -/
def defaultOptions : LoggerOptions := {}

/-! ## Level mappings of the two backends -/

/-- spdlog severity values `trace=0, debug=1, info=2, warn=3, err=4, critical=5`.
The switch used identically in `Logger::Init` (xyz_log.hpp lines 180-189),
`Logger::SetLogLevel` (lines 225-234) and `FastLogStream::~FastLogStream`
(lines 332-341). -/
def spdlogMap : LogLevel → Nat
  | .TRACE => 0
  | .DEBUG => 1
  | .INFO => 2
  | .WARNING => 3
  | .ERROR => 4
  | .FATAL => 5

/-- Modelled from the spec: the spdlog subproject (README 项目结构 `spdlog/`,
sources not available here) emits a record only if its severity is ≥ the
logger's configured severity — "a record is emitted only if its level ≥ the
currently configured minimum level".  Record severity is `spdlogMap L`;
the configured severity set by `Init`/`SetLogLevel` is `spdlogMap M`. -/
def spdlogDelivered (L M : LogLevel) : Prop := spdlogMap M ≤ spdlogMap L

instance (L M : LogLevel) : Decidable (spdlogDelivered L M) :=
  inferInstanceAs (Decidable (_ ≤ _))

/-- glog severity values `GLOG_INFO=0, GLOG_WARNING=1, GLOG_ERROR=2, GLOG_FATAL=3`.
Record severity per the macros `LOG_TRACE → LOG(INFO)`, `LOG_DEBUG → LOG(INFO)`
(xyz_log.hpp lines 21-22); threshold severity per the `FLAGS_minloglevel`
switches in the glog-backend `Logger::Init` (lines 66-85) and
`Logger::SetLogLevel` (lines 113-132), which map TRACE, DEBUG and INFO all to
`GLOG_INFO`. -/
def glogSeverity : LogLevel → Nat
  | .TRACE => 0
  | .DEBUG => 0
  | .INFO => 0
  | .WARNING => 1
  | .ERROR => 2
  | .FATAL => 3

/-- Modelled from the spec: glog (external backend, not under src/) emits a
record only if its severity is ≥ `FLAGS_minloglevel` — the spec's filtering
rule applied to the mapped severities. -/
def glogDelivered (L M : LogLevel) : Prop := glogSeverity M ≤ glogSeverity L

instance (L M : LogLevel) : Decidable (glogDelivered L M) :=
  inferInstanceAs (Decidable (_ ≤ _))

/-- The glog-backend `Logger::GetLogLevel` (implementation file lines 135-145):
returns `INFO` when uninitialised, otherwise converts `FLAGS_minloglevel`
back through the ≥-cascade. -/
def glogGetLogLevel (inited : Bool) (minloglevel : Nat) : LogLevel :=
  if !inited then .INFO
  else if 3 ≤ minloglevel then .FATAL
  else if 2 ≤ minloglevel then .ERROR
  else if 1 ≤ minloglevel then .WARNING
  else .INFO

/-! ## Sinks, delivery engine, and the process-wide logger state (spdlog backend) -/

/-- `spdlog::sinks::rotating_file_sink_mt::MaxFiles`, the constant the code
passes as the file-count limit (`constexpr std::size_t unlimited_files =
spdlog::sinks::rotating_file_sink_mt::MaxFiles;`, xyz_log.hpp line 144; the
adjacent comment states the constant is 200000). -/
def spdlogMaxFiles : Nat := 200000

/-- Constructor arguments of a `rotating_file_sink` as passed at
xyz_log.hpp lines 146-151: base filename, `max_log_size`, file-count limit,
`rotate_on_open = true`. -/
structure RotatingSinkCfg where
  base_filename : String
  max_size : Nat
  max_files : Nat
  rotate_on_open : Bool
deriving DecidableEq, Repr

/-- The sinks `Logger::Init` can construct (xyz_log.hpp lines 145-161);
the Bool records whether the `_mt` (multi-threaded) variant was chosen. -/
inductive Sink where
  | rotatingFile (cfg : RotatingSinkCfg) (mt : Bool)
  | console (mt : Bool)
deriving DecidableEq, Repr

/-- spdlog's async overflow policies; `Logger::Init` selects `block`
(xyz_log.hpp line 169). -/
inductive OverflowPolicy where
  | block
  | overrun_oldest
deriving DecidableEq, Repr

/-- The delivery engine `Logger::Init` installs: an `async_logger` backed by a
thread pool of the configured queue size and worker count (lines 163-170), or
a plain synchronous `logger` (line 172). -/
inductive Engine where
  | async (queueSize workers : Nat) (policy : OverflowPolicy)
  | sync
deriving DecidableEq, Repr

/-- `struct LoggerState` (xyz_log.hpp lines 81-87): the active options, the
initialised flag, and the logger handle (represented by its sink list and
engine; `none` while no logger was ever built). -/
structure LoggerState where
  opts : LoggerOptions := {}
  initialized : Bool := false
  sinks : List Sink := []
  engine : Option Engine := none
deriving DecidableEq, Repr

/-- The function-local static `g_state` before any call touched it
(`GetLoggerState`, xyz_log.hpp lines 89-92). -/
def initialState : LoggerState := {}

/-- Outcomes of the two fallible steps inside `Logger::Init`'s `try` block:
whether `std::filesystem::create_directories` throws (caught at lines
125-128) and whether sink/logger construction throws `spdlog_ex` (caught at
lines 197-199). -/
structure InitEnv where
  dirCreateFails : Bool
  sinkCtorThrows : Bool
deriving DecidableEq, Repr

/-- An `InitEnv` in which nothing fails. -/
def okEnv : InitEnv := ⟨false, false⟩

/-- The log directory computation of `Logger::Init` (xyz_log.hpp lines
103-117): empty `log_dir` falls back to `$HOME/.my_log` (or `.my_log` without
`HOME`), then the program name is appended as a subdirectory. -/
def actualLogDir (opts : LoggerOptions) (home : Option String) : String :=
  let base := if opts.log_dir = "" then
      match home with
      | some h => h ++ "/.my_log"
      | none => ".my_log"
    else opts.log_dir
  base ++ "/" ++ opts.program_name

/-- The timestamped log-file name of `Logger::Init` (xyz_log.hpp line 143):
`<actual_log_dir>/<program_name>_<time_str>.log`, where `time_str` is the
`YYYY-MM-DD_HH-MM-SS` rendering of the wall clock read once at Init
(lines 131-139). -/
def logFileName (opts : LoggerOptions) (home : Option String) (ts : String) : String :=
  actualLogDir opts home ++ "/" ++ opts.program_name ++ "_" ++ ts ++ ".log"

/-- The fully initialised state a failure-free `Logger::Init` establishes:
file sink from the timestamped name, optional console sink, async or sync
engine, options stored, flag set. -/
def goodInitState (opts : LoggerOptions) (home : Option String) (ts : String) :
    LoggerState :=
  { opts := opts
    initialized := true
    sinks :=
      [Sink.rotatingFile
        ⟨logFileName opts home ts, opts.max_log_size, spdlogMaxFiles, true⟩
        opts.multi_thread] ++
      (if opts.enable_console then [Sink.console opts.multi_thread] else [])
    engine := some (if opts.async_mode then
        Engine.async opts.async_queue_size 1 OverflowPolicy.block
      else Engine.sync) }

/-- `Logger::Init` (xyz_log.hpp lines 95-200).  Returns the new state and the
lines written to stderr.  Control flow follows the source: an early return
when already initialised (line 98); `state.opts = opts` before the `try`
block (line 99); a directory-creation failure is reported and execution
continues (lines 125-128); a `spdlog_ex` from sink/logger construction jumps
to the outer catch (lines 197-199), which reports it and leaves
`state.initialized` false and the stale logger handle untouched. -/
def Logger.Init (s : LoggerState) (opts : LoggerOptions) (env : InitEnv)
    (home : Option String) (ts : String) : LoggerState × List String :=
  if s.initialized then (s, [])
  else
    let s0 : LoggerState := { s with opts := opts }
    let dirErrs : List String :=
      if env.dirCreateFails then
        ["Failed to create log directory " ++ actualLogDir opts home] else []
    if env.sinkCtorThrows then
      (s0, dirErrs ++ ["spdlog init failed"])
    else
      (goodInitState opts home ts, dirErrs)

/-- `Logger::Shutdown` (xyz_log.hpp lines 202-208): no-op when not
initialised; otherwise `spdlog::shutdown()` and the flag is cleared.  The
`state.opts` and the `state.logger` member are not reset. -/
def Logger.Shutdown (s : LoggerState) : LoggerState :=
  if !s.initialized then s else { s with initialized := false }

/-- `Logger::IsInitialized` (xyz_log.hpp lines 210-212). -/
def Logger.IsInitialized (s : LoggerState) : Bool := s.initialized

/-- `Logger::SetLogLevel` (xyz_log.hpp lines 218-240): no-op when not
initialised; otherwise stores the level in `state.opts.log_level` and pushes
the mapped spdlog severity to the backend. -/
def Logger.SetLogLevel (s : LoggerState) (level : LogLevel) : LoggerState :=
  if !s.initialized then s
  else { s with opts := { s.opts with log_level := level } }

/-- `Logger::GetLogLevel` (xyz_log.hpp lines 242-246): returns
`state.opts.log_level` unconditionally. -/
def Logger.GetLogLevel (s : LoggerState) : LogLevel := s.opts.log_level

/-! ## The Record Builder (`FastLogStream`) -/

/-- Drop everything up to and including the last occurrence of `c`
(the effect of `std::strrchr` + advancing past the separator). -/
def afterLastChar (c : Char) (cs : List Char) : List Char :=
  (cs.reverse.takeWhile (fun x => x ≠ c)).reverse

/-- The filename extraction of the `FastLogStream` constructor (xyz_log.hpp
lines 307-315): first advance past the last `'/'` of the whole path, then
past the last `'\'` of what remains. -/
def extractFilename (file : String) : String :=
  ⟨afterLastChar '\\' (afterLastChar '/' file.toList)⟩

/-- The spec's description of the same step: the substring of the path after
the last occurrence of `'/'` or `'\'` (the whole path when neither occurs). -/
def basenameSpec (file : String) : String :=
  ⟨(file.toList.reverse.takeWhile (fun x => x ≠ '/' ∧ x ≠ '\\')).reverse⟩

/-- `struct FastLogStream::Impl` (xyz_log.hpp lines 294-299): the growable
buffer, the level, and the captured file/line. -/
structure Impl where
  buf : String
  lvl : LogLevel
  file : String
  line : Int
deriving DecidableEq, Repr

/-- The `FastLogStream` constructor (xyz_log.hpp lines 301-319): allocates the
Impl, extracts the base filename, and formats the prefix `[filename:line] `
into the buffer.  It reads no logger state and performs no level check. -/
def FastLogStream.construct (file : String) (line : Int) (lvl : LogLevel) : Impl :=
  { buf := "[" ++ extractFilename file ++ ":" ++ toString line ++ "] "
    lvl := lvl
    file := file
    line := line }

/-- `FastLogStream::append(const char*)` (xyz_log.hpp lines 358-361) /
`append_impl` for a string value: the formatted text is appended to the
buffer, unconditionally. -/
def FastLogStream.appendStr (impl : Impl) (s : String) : Impl :=
  { impl with buf := impl.buf ++ s }

/-- The observable steps the `FastLogStream` destructor can take. -/
inductive DtorEffect where
  | stderrOut (msg : String)
  | submit (severity : Nat) (msg : String)
  | flushAll
  | sleep50ms
  | abortProcess
deriving DecidableEq, Repr

/-- `FastLogStream::~FastLogStream` (xyz_log.hpp lines 321-356) as the list of
its observable effects, in order: when the logger is not initialised, the
buffer goes to stderr and the destructor returns; otherwise the buffer is
submitted at the mapped spdlog severity, and for FATAL the default logger is
flushed, the thread sleeps 50 ms, and `std::abort()` runs. -/
def FastLogStream.dtor (s : LoggerState) (impl : Impl) : List DtorEffect :=
  if !s.initialized then [.stderrOut impl.buf]
  else
    [.submit (spdlogMap impl.lvl) impl.buf] ++
    (if impl.lvl = .FATAL then [.flushAll, .sleep50ms, .abortProcess] else [])

/-- Whether a destructor run ends in process termination. -/
def terminatesProcess (effects : List DtorEffect) : Prop :=
  DtorEffect.abortProcess ∈ effects

instance (effects : List DtorEffect) : Decidable (terminatesProcess effects) :=
  inferInstanceAs (Decidable (_ ∈ _))

/-! ## Rotation naming of the spdlog rotating file sink

The sink itself is code of the spdlog subproject (README 项目结构:
`spdlog/`, unmodified), whose sources are not under src/; the header's own
comment (xyz_log.hpp line 9) and the README feature list (特性: rotation
uses "启动时间+编号", startup time plus index; timestamp-per-file naming
would require a custom sink, which is not implemented) record its naming
scheme. -/

/-- Index of the last occurrence of `c` in `cs`, if any. -/
def lastIdxOf (c : Char) (cs : List Char) : Option Nat :=
  match cs.reverse.findIdx? (fun x => x = c) with
  | none => none
  | some j => some (cs.length - 1 - j)

/-- Modelled from the spec: the spdlog subproject's filename/extension split
used by its rotating file sink (subproject not under src/).  The extension
starts at the last `'.'`, unless there is none, it is the first character,
it is the last character, or it sits at or directly after the last `'/'`
(dotfiles and dotted directories carry no extension). -/
def splitByExtension (s : String) : String × String :=
  let cs := s.toList
  match lastIdxOf '.' cs with
  | none => (s, "")
  | some i =>
    if i = 0 ∨ i = cs.length - 1 then (s, "")
    else
      match lastIdxOf '/' cs with
      | none => (⟨cs.take i⟩, ⟨cs.drop i⟩)
      | some f => if i ≤ f + 1 then (s, "") else (⟨cs.take i⟩, ⟨cs.drop i⟩)

/-- Modelled from the spec: the rotation naming of the spdlog subproject's
rotating file sink (subproject not under src/), per the repository's own
description (README 特性: "启动时间+编号" — the base name fixed at Init keeps
its startup timestamp and rotated file `i` gets the numeric index `i`
inserted before the extension; index 0 is the base file itself). -/
def calcFilename (base : String) (i : Nat) : String :=
  if i = 0 then base
  else
    let p := splitByExtension base
    p.1 ++ "." ++ toString i ++ p.2

/-- The rotating-file-sink configuration `Logger::Init` passes (xyz_log.hpp
lines 143-151) for given options, home directory and Init timestamp. -/
def initFileSinkCfg (opts : LoggerOptions) (home : Option String) (ts : String) :
    RotatingSinkCfg :=
  ⟨logFileName opts home ts, opts.max_log_size, spdlogMaxFiles, true⟩

/-! ## The bounded asynchronous queue

`Logger::Init` configures `spdlog::init_thread_pool(opts.async_queue_size, 1)`
and `async_overflow_policy::block` (xyz_log.hpp lines 163-169).  The queue
implementation is code of the spdlog subproject, not under src/. -/

/-- State of the asynchronous delivery subsystem: the pending queue and the
records already written to the sinks, in order. -/
structure QueueState where
  queue : List String
  delivered : List String
deriving DecidableEq, Repr

/-- Modelled from the spec: `submit` on the spdlog subproject's bounded queue
under the `block` overflow policy (subproject not under src/) — "when the
queue is full, submit blocks the calling thread until space is available (no
drop, no error)".  In this sequential model, a blocked producer waits for the
single worker to pop one record, then enqueues. -/
def submitBlocking (cap : Nat) (q : QueueState) (r : String) : QueueState :=
  if q.queue.length < cap then { q with queue := q.queue ++ [r] }
  else
    { queue := q.queue.drop 1 ++ [r]
      delivered := q.delivered ++ q.queue.take 1 }

/-- A sequence of producer submissions against the bounded queue. -/
def runSubmits (cap : Nat) (q : QueueState) (rs : List String) : QueueState :=
  rs.foldl (submitBlocking cap) q

/-- The worker thread draining everything that is still queued (what
`Shutdown`'s drain-before-stop performs). -/
def drainAll (q : QueueState) : QueueState :=
  { queue := [], delivered := q.delivered ++ q.queue }

/-! ## Helper lemmas -/

theorem takeWhile_after_takeWhile (p q : Char → Bool) (l : List Char) :
    (l.takeWhile q).takeWhile p = l.takeWhile (fun a => q a && p a) := by
  induction l with
  | nil => rfl
  | cons hd tl ih =>
    by_cases hq : q hd
    · by_cases hp : p hd <;> simp [List.takeWhile_cons, hq, hp, ih]
    · simp [List.takeWhile_cons, hq]

/-- The two-pass separator stripping of the constructor agrees with the
spec's one-pass description. -/
theorem extractFilename_eq_basenameSpec (file : String) :
    extractFilename file = basenameSpec file := by
  unfold extractFilename basenameSpec afterLastChar
  rw [List.reverse_reverse, takeWhile_after_takeWhile]
  have hp : (fun a : Char => decide (a ≠ '/') && decide (a ≠ '\\')) =
      (fun x : Char => decide (x ≠ '/' ∧ x ≠ '\\')) := by
    funext a
    by_cases h1 : a = '/' <;> by_cases h2 : a = '\\' <;> simp [h1, h2]
  rw [hp]

theorem submitBlocking_inv (cap : Nat) (q : QueueState) (r : String) :
    (submitBlocking cap q r).delivered ++ (submitBlocking cap q r).queue =
      q.delivered ++ (q.queue ++ [r]) := by
  unfold submitBlocking
  by_cases h : q.queue.length < cap
  · simp [h]
  · simp only [h, if_neg, ite_false]
    rw [List.append_assoc q.delivered, ← List.append_assoc (List.take 1 q.queue),
      List.take_append_drop]

theorem runSubmits_inv (cap : Nat) (rs : List String) (q : QueueState) :
    (runSubmits cap q rs).delivered ++ (runSubmits cap q rs).queue =
      q.delivered ++ (q.queue ++ rs) := by
  induction rs generalizing q with
  | nil => simp [runSubmits]
  | cons r rs ih =>
    have hstep : runSubmits cap q (r :: rs) =
        runSubmits cap (submitBlocking cap q r) rs := rfl
    rw [hstep, ih, ← List.append_assoc, submitBlocking_inv]
    simp

/-! ## Claims -/

/-- C9: for every source path with any mix of `/` and `\` separators, the
builder's buffer is initialised with exactly `[filename:line] ` where
filename is the substring after the last occurrence of either separator
(the whole path when neither occurs). -/
theorem c9_prefix_is_basename (file : String) (line : Int) (lvl : LogLevel) :
    (FastLogStream.construct file line lvl).buf =
      "[" ++ basenameSpec file ++ ":" ++ toString line ++ "] " := by
  show "[" ++ extractFilename file ++ ":" ++ toString line ++ "] " = _
  rw [extractFilename_eq_basenameSpec]

/-- C3 as stated is false: in the glog backend TRACE and DEBUG are mapped to
the same backend severity (GLOG_INFO), and a TRACE statement is delivered
under minimum level DEBUG although TRACE < DEBUG. -/
theorem c3_counterexample :
    glogSeverity .TRACE = glogSeverity .DEBUG ∧
    glogDelivered .TRACE .DEBUG ∧ ¬ levelLe .DEBUG .TRACE := by decide

/-- C3 amended: in the spdlog backend a record at level L is delivered iff
L ≥ M, the six levels map to distinct spdlog severities preserving the
TRACE < … < FATAL order; in the glog backend TRACE, DEBUG and INFO collapse
to one severity, so delivery holds iff severity(L) ≥ severity(M) — that is,
iff L ≥ M or both L and M lie in the collapsed {TRACE, DEBUG, INFO} group. -/
theorem c3_amended_delivery :
    (∀ L M, spdlogDelivered L M ↔ levelLe M L) ∧
    (∀ L L' : LogLevel, spdlogMap L ≤ spdlogMap L' ↔ levelLe L L') ∧
    (∀ L L' : LogLevel, spdlogMap L = spdlogMap L' ↔ L = L') ∧
    (∀ L M, glogDelivered L M ↔
      (levelLe M L ∨ (L.toNat ≤ 2 ∧ M.toNat ≤ 2))) := by decide

/-- C2 as stated is false: with the default minimum level (ERROR), a TRACE
builder — whose level is strictly below the minimum — still allocates its
buffer, formats the `[filename:line] ` prefix at construction, and formats
appended values. -/
theorem c2_counterexample :
    LogLevel.TRACE.toNat < defaultOptions.log_level.toNat ∧
    (FastLogStream.construct "src/main.cpp" 3 .TRACE).buf = "[main.cpp:3] " ∧
    (FastLogStream.construct "src/main.cpp" 3 .TRACE).buf ≠ "" ∧
    (FastLogStream.appendStr (FastLogStream.construct "src/main.cpp" 3 .TRACE)
        "x").buf = "[main.cpp:3] x" := by
  refine ⟨by decide, rfl, by decide, rfl⟩

/-- C2 amended: the Record Builder performs no construction-time filtering:
construction always allocates the buffer and formats the prefix, appends
always format, and destruction while initialised always submits the record
to the backend, which applies the level filter (delivering iff L ≥ M) and
drops below-minimum records there. -/
theorem c2_amended_no_fast_reject :
    (∀ file line lvl, (FastLogStream.construct file line lvl).buf =
      "[" ++ extractFilename file ++ ":" ++ toString line ++ "] ") ∧
    (∀ impl s, (FastLogStream.appendStr impl s).buf = impl.buf ++ s) ∧
    (∀ st impl, st.initialized = true →
      FastLogStream.dtor st impl =
        .submit (spdlogMap impl.lvl) impl.buf ::
          (if impl.lvl = .FATAL then [.flushAll, .sleep50ms, .abortProcess]
            else [])) ∧
    (∀ L M, spdlogDelivered L M ↔ levelLe M L) := by
  refine ⟨fun _ _ _ => rfl, fun _ _ => rfl, fun st impl h => ?_, by decide⟩
  simp [FastLogStream.dtor, h]

/-- Witness for C2's amended theorem at a concrete initialised state and a
concrete INFO builder. -/
theorem c2_amended_no_fast_reject_witness :
    FastLogStream.dtor (goodInitState defaultOptions none "TS")
        (FastLogStream.construct "a/b.cpp" 1 .INFO) =
      .submit (spdlogMap (FastLogStream.construct "a/b.cpp" 1 .INFO).lvl)
          (FastLogStream.construct "a/b.cpp" 1 .INFO).buf ::
        (if (FastLogStream.construct "a/b.cpp" 1 .INFO).lvl = .FATAL
          then [.flushAll, .sleep50ms, .abortProcess] else []) :=
  c2_amended_no_fast_reject.2.2.1 _ _ rfl

/-- C4: for every FATAL builder destroyed while the logger is initialised —
whatever the configured engine (synchronous or asynchronous), since the state
is arbitrary — the destructor submits the record, then flushes all sinks,
then waits briefly (50 ms) for the asynchronous queue to drain, and then
terminates the process unconditionally. -/
theorem c4_fatal_flush_abort (st : LoggerState) (impl : Impl)
    (hinit : st.initialized = true) (hf : impl.lvl = .FATAL) :
    FastLogStream.dtor st impl =
      [.submit (spdlogMap .FATAL) impl.buf, .flushAll, .sleep50ms,
        .abortProcess] ∧
    terminatesProcess (FastLogStream.dtor st impl) := by
  constructor
  · simp [FastLogStream.dtor, hinit, hf]
  · simp [FastLogStream.dtor, hinit, hf, terminatesProcess]

/-- Witness for C4 at a concrete initialised state (async engine, the
default) and a concrete FATAL builder. -/
theorem c4_fatal_flush_abort_witness :
    FastLogStream.dtor (goodInitState defaultOptions none "TS")
        (FastLogStream.construct "m.cpp" 9 .FATAL) =
      [.submit (spdlogMap .FATAL)
          (FastLogStream.construct "m.cpp" 9 .FATAL).buf,
        .flushAll, .sleep50ms, .abortProcess] ∧
    terminatesProcess (FastLogStream.dtor (goodInitState defaultOptions none "TS")
        (FastLogStream.construct "m.cpp" 9 .FATAL)) :=
  c4_fatal_flush_abort _ _ rfl rfl

/-- C10: a FATAL builder destroyed while the logger is not initialised writes
the buffer to stderr and returns normally: no sink flush, no abort. -/
theorem c10_uninitialized_fatal_no_abort (st : LoggerState) (impl : Impl)
    (h : st.initialized = false) :
    FastLogStream.dtor st impl = [.stderrOut impl.buf] ∧
    ¬ terminatesProcess (FastLogStream.dtor st impl) ∧
    DtorEffect.flushAll ∉ FastLogStream.dtor st impl := by
  refine ⟨by simp [FastLogStream.dtor, h], ?_, ?_⟩ <;>
    simp [FastLogStream.dtor, h, terminatesProcess]

/-- Witness for C10 at the pristine uninitialised state with a concrete
FATAL builder. -/
theorem c10_uninitialized_fatal_no_abort_witness :
    FastLogStream.dtor initialState (FastLogStream.construct "m.cpp" 9 .FATAL)
        = [.stderrOut (FastLogStream.construct "m.cpp" 9 .FATAL).buf] ∧
    ¬ terminatesProcess
        (FastLogStream.dtor initialState
          (FastLogStream.construct "m.cpp" 9 .FATAL)) ∧
    DtorEffect.flushAll ∉
      FastLogStream.dtor initialState
        (FastLogStream.construct "m.cpp" 9 .FATAL) :=
  c10_uninitialized_fatal_no_abort _ _ rfl

/-- C5 as stated is false: the glog backend's `GetLogLevel` returns INFO, not
the documented default ERROR, when uninitialised; and after `Shutdown` the
spdlog backend's `GetLogLevel` returns the last configured level (here INFO),
not ERROR. -/
theorem c5_counterexample :
    glogGetLogLevel false 0 = .INFO ∧
    LogLevel.INFO ≠ .ERROR ∧
    Logger.GetLogLevel
        (Logger.Shutdown
          (Logger.Init initialState { log_level := .INFO } okEnv
            (some "/home/u") "TS").1) = .INFO := by
  refine ⟨rfl, by decide, rfl⟩

/-- C5 amended: every public operation is safe (total) before Init and after
Shutdown: an uninitialised log statement writes its finished buffer to
stderr and the builder is discarded; `SetLevel` is a no-op; `GetLevel`
returns the level stored in the current options — the documented default
(ERROR) before the first Init in the spdlog backend and the most recently
configured level after Shutdown — while the glog backend returns INFO
whenever uninitialised. -/
theorem c5_amended_uninitialized_safety :
    Logger.GetLogLevel initialState = .ERROR ∧
    (∀ s lvl, s.initialized = false → Logger.SetLogLevel s lvl = s) ∧
    (∀ s impl, s.initialized = false →
      FastLogStream.dtor s impl = [.stderrOut impl.buf] ∧
      ¬ terminatesProcess (FastLogStream.dtor s impl)) ∧
    (∀ m, glogGetLogLevel false m = .INFO) ∧
    (∀ s, Logger.GetLogLevel (Logger.Shutdown s) = s.opts.log_level) := by
  refine ⟨rfl, fun s lvl h => ?_, fun s impl h => ?_, fun m => rfl, fun s => ?_⟩
  · simp [Logger.SetLogLevel, h]
  · constructor <;> simp [FastLogStream.dtor, h, terminatesProcess]
  · unfold Logger.GetLogLevel Logger.Shutdown
    by_cases h : s.initialized <;> simp [h]

/-- Witness for C5's amended theorem: `SetLogLevel` and the stderr fallback
at the pristine uninitialised state. -/
theorem c5_amended_uninitialized_safety_witness :
    Logger.SetLogLevel initialState .DEBUG = initialState ∧
    FastLogStream.dtor initialState (FastLogStream.construct "a.cpp" 1 .WARNING)
      = [.stderrOut (FastLogStream.construct "a.cpp" 1 .WARNING).buf] :=
  ⟨c5_amended_uninitialized_safety.2.1 _ _ rfl,
    (c5_amended_uninitialized_safety.2.2.1 _ _ rfl).1⟩

/-- C6: the lifecycle state machine: `Init` while already initialised is a
no-op with no error (first caller wins); `Shutdown` while uninitialised is
an idempotent no-op; `Init` after a `Shutdown` succeeds and fully
re-establishes sinks and engine from the newly supplied options, retaining
nothing from the prior session. -/
theorem c6_lifecycle :
    (∀ s opts env home ts, s.initialized = true →
      Logger.Init s opts env home ts = (s, [])) ∧
    (∀ s, s.initialized = false → Logger.Shutdown s = s) ∧
    (∀ s opts home ts,
      (Logger.Init (Logger.Shutdown s) opts okEnv home ts).1 =
        goodInitState opts home ts) ∧
    (∀ opts home ts, (goodInitState opts home ts).initialized = true) := by
  refine ⟨fun s opts env home ts h => ?_, fun s h => ?_,
    fun s opts home ts => ?_, fun opts home ts => rfl⟩
  · simp [Logger.Init, h]
  · simp [Logger.Shutdown, h]
  · have hsd : (Logger.Shutdown s).initialized = false := by
      unfold Logger.Shutdown
      by_cases h : s.initialized <;> simp [h]
    simp [Logger.Init, hsd, okEnv]

/-- Witness for C6: a full Init → Shutdown → re-Init round trip from the
pristine state with fresh options. -/
theorem c6_lifecycle_witness :
    Logger.Init (goodInitState defaultOptions none "TS") { log_dir := "/x" }
        okEnv none "TS2" = (goodInitState defaultOptions none "TS", []) ∧
    Logger.Shutdown initialState = initialState ∧
    (Logger.Init
        (Logger.Shutdown (goodInitState defaultOptions none "TS"))
        { log_dir := "/x" } okEnv none "TS2").1 =
      goodInitState { log_dir := "/x" } none "TS2" :=
  ⟨c6_lifecycle.1 _ _ _ _ _ rfl, c6_lifecycle.2.1 _ rfl,
    c6_lifecycle.2.2.1 _ _ _ _⟩

/-- C7 as stated is false: when sink construction throws, `Init` reports the
failure to stderr but does not proceed in a degraded mode — the `spdlog_ex`
jumps to the outer catch, skipping the console sink, the engine and the
`initialized = true` assignment, so the logger is left uninitialised with no
sinks rather than initialised with the failing sink missing. -/
theorem c7_counterexample :
    (Logger.Init initialState defaultOptions ⟨false, true⟩ (some "/home/u")
        "TS").1.initialized = false ∧
    (Logger.Init initialState defaultOptions ⟨false, true⟩ (some "/home/u")
        "TS").1.sinks = [] ∧
    (Logger.Init initialState defaultOptions ⟨false, true⟩ (some "/home/u")
        "TS").2 = ["spdlog init failed"] :=
  ⟨rfl, rfl, rfl⟩

/-- C7 amended: initialisation failures are reported to stderr and never
thrown (Init is total); a directory-creation failure alone is tolerated and
initialisation completes normally (the sink is still constructed at the
computed path); but a sink-construction failure stops Init at the outer
catch: the error is reported, the logger is left uninitialised with its old
sink handle untouched, and subsequent log statements therefore use the
stderr fallback. -/
theorem c7_amended_degraded_init :
    (∀ s opts home ts, s.initialized = false →
      Logger.Init s opts ⟨true, false⟩ home ts =
        (goodInitState opts home ts,
          ["Failed to create log directory " ++ actualLogDir opts home])) ∧
    (∀ s opts env home ts, s.initialized = false → env.sinkCtorThrows = true →
      (Logger.Init s opts env home ts).1.initialized = false ∧
      (Logger.Init s opts env home ts).1.sinks = s.sinks ∧
      (Logger.Init s opts env home ts).2 ≠ []) := by
  constructor
  · intro s opts home ts h
    simp [Logger.Init, h]
  · intro s opts env home ts h hthrow
    refine ⟨?_, ?_, ?_⟩ <;> simp [Logger.Init, h, hthrow]

/-- Witness for C7's amended theorem: a directory-creation failure from the
pristine state still initialises, and a sink-construction failure does not. -/
theorem c7_amended_degraded_init_witness :
    Logger.Init initialState defaultOptions ⟨true, false⟩ (some "/home/u") "TS"
      = (goodInitState defaultOptions (some "/home/u") "TS",
          ["Failed to create log directory " ++
            actualLogDir defaultOptions (some "/home/u")]) ∧
    (Logger.Init initialState defaultOptions ⟨true, true⟩ (some "/home/u")
        "TS").1.initialized = false :=
  ⟨c7_amended_degraded_init.1 _ _ _ _ rfl,
    (c7_amended_degraded_init.2 _ _ _ _ _ rfl rfl).1⟩

/-- C8: `Init` in asynchronous mode installs a single-worker engine over a
bounded queue of the configured capacity with the `block` overflow policy;
under that policy a full queue blocks the producer until the worker frees a
slot, so no record is ever dropped or rejected: after the worker drains,
the delivered sequence equals the submitted sequence exactly, whatever the
capacity and however many records beyond it were submitted. -/
theorem c8_async_block_no_drop :
    (∀ opts home ts, (goodInitState opts home ts).engine =
      some (if opts.async_mode then
          Engine.async opts.async_queue_size 1 OverflowPolicy.block
        else Engine.sync)) ∧
    (∀ cap rs, (drainAll (runSubmits cap ⟨[], []⟩ rs)).delivered = rs) := by
  refine ⟨fun opts home ts => rfl, fun cap rs => ?_⟩
  show (runSubmits cap ⟨[], []⟩ rs).delivered ++ (runSubmits cap ⟨[], []⟩ rs).queue = rs
  rw [runSubmits_inv]
  simp

/-- The file-sink configuration `Init` passes for options with
`log_dir = "/tmp/logs"` and Init timestamp `2025-11-18_10-00-00`. -/
def c1SinkCfg : RotatingSinkCfg :=
  initFileSinkCfg { log_dir := "/tmp/logs" } (some "/home/u")
    "2025-11-18_10-00-00"

/-- C1 as stated is false: the first rotated file of the sink configured at
Init is `.../my_app_2025-11-18_10-00-00.1.log` — the Init-time base name with
a numeric suffix, not a name of the form `<program>_<19-character fresh
timestamp>.log` — and the sink is constructed with the finite file-count
limit `MaxFiles = 200000` rather than without a cap. -/
theorem c1_counterexample :
    calcFilename c1SinkCfg.base_filename 1 =
      "/tmp/logs/my_app/my_app_2025-11-18_10-00-00.1.log" ∧
    (¬ ∃ ts2 : String, ts2.length = 19 ∧
      calcFilename c1SinkCfg.base_filename 1 =
        "/tmp/logs/my_app/my_app_" ++ ts2 ++ ".log") ∧
    c1SinkCfg.max_files = 200000 := by
  refine ⟨rfl, ?_, rfl⟩
  rintro ⟨ts2, hlen, heq⟩
  have h1 : calcFilename c1SinkCfg.base_filename 1 =
      "/tmp/logs/my_app/my_app_2025-11-18_10-00-00.1.log" := rfl
  rw [h1] at heq
  have hl := congrArg String.length heq
  rw [String.length_append, String.length_append] at hl
  have e1 : ("/tmp/logs/my_app/my_app_2025-11-18_10-00-00.1.log" : String).length
      = 49 := rfl
  have e2 : ("/tmp/logs/my_app/my_app_" : String).length = 24 := rfl
  have e3 : (".log" : String).length = 4 := rfl
  rw [e1, e2, e3] at hl
  omega

/-- C1 amended: `Init` installs a rotating file sink over the single base
filename `<dir>/<program>/<program>_<Init timestamp>.log`, the configured
`max_log_size`, and the backend's `MaxFiles` constant (200000) as the
file-count limit; rotation keeps that Init-time base name — rotated file `i`
is the base name with the numeric index `i` inserted before the `.log`
extension (index 0 being the base file), never a freshly timestamped name —
and retention is capped at `MaxFiles` files. -/
theorem c1_amended_rotation :
    (∀ opts home ts, (goodInitState opts home ts).sinks.head? =
      some (.rotatingFile (initFileSinkCfg opts home ts) opts.multi_thread)) ∧
    (∀ opts home ts,
      (initFileSinkCfg opts home ts).base_filename = logFileName opts home ts ∧
      (initFileSinkCfg opts home ts).max_size = opts.max_log_size ∧
      (initFileSinkCfg opts home ts).max_files = spdlogMaxFiles) ∧
    spdlogMaxFiles = 200000 ∧
    calcFilename c1SinkCfg.base_filename 0 = c1SinkCfg.base_filename ∧
    (∀ i : Nat, calcFilename c1SinkCfg.base_filename (i + 1) =
      "/tmp/logs/my_app/my_app_2025-11-18_10-00-00." ++ toString (i + 1) ++
        ".log") :=
  ⟨fun _ _ _ => rfl, fun _ _ _ => ⟨rfl, rfl, rfl⟩, rfl, rfl, fun _ => rfl⟩

end MyLog
